import Mathlib

/-!
Shallow embedding of the record-validation programs of Python_Module_09
(`src/ex0/space_station.py`, `src/ex1/alien_contact.py`,
`src/ex2/space_crew.py`).

Each schema's field constraints come from its `Field(...)` declarations and
its model rules from its `@model_validator(mode='after')` method, translated
clause by clause from the source.  The orchestration of the validator (which
lives in the pydantic library, outside this repository's sources) is modelled
from the spec, §4.4: field checks in declaration order, first failure returned
immediately, then model rules in declaration order over the assembled
instance.  Numeric values are rationals (exact arithmetic); inputs are
already-typed mappings per spec §6, with `Option` marking optional slots.
-/

namespace PyMod09

/-- Error taxonomy of spec §7. -/
inductive ErrorKind where
  | MissingField
  | TypeMismatch
  | ConstraintViolation
  | BusinessRuleViolation
deriving DecidableEq, Repr

/-- A structured validation error, spec §3: `field` is set for field-level
violations and empty for model-rule violations. -/
structure ValidationError where
  field : Option String
  code : ErrorKind
  message : String
deriving DecidableEq, Repr

/-- A field-level constraint violation on field `f`. -/
def mkFieldErr (f msg : String) : ValidationError :=
  ⟨some f, ErrorKind.ConstraintViolation, msg⟩

/-- A model-rule (cross-field) violation: `field = none`. -/
def mkRuleErr (msg : String) : ValidationError :=
  ⟨none, ErrorKind.BusinessRuleViolation, msg⟩

/-- Numeric range constraint, `Field(ge=lo, le=hi)`: fails exactly when
`v < lo or v > hi`, inclusive at both ends. -/
def rangeCheck (lo hi v : ℚ) : Bool :=
  !(v < lo || v > hi)

/-- Integer range constraint, `Field(ge=lo, le=hi)`. -/
def intRangeCheck (lo hi v : Int) : Bool :=
  lo ≤ v && v ≤ hi

/-- String length constraint, `Field(min_length=lo, max_length=hi)`,
inclusive at both ends. -/
def lengthCheck (lo hi : Nat) (s : String) : Bool :=
  lo ≤ s.length && s.length ≤ hi

/-- Python's `str.startswith(pre)`: a literal prefix test on the character
sequence. -/
def strStartsWith (s pre : String) : Bool :=
  pre.data.isPrefixOf s.data

/-- Timestamps carry no constraints in any schema; an opaque calendar value
suffices. -/
structure DateTime where
  year : Nat
  month : Nat
  day : Nat
deriving DecidableEq, Repr

/-- Modelled from the spec: §4.4 step 1, the field-checking phase of the
pydantic validator (library code, not in this repository's sources).  Runs
the checks in declaration order and returns the first failure, or `none`
when every field passes. -/
def firstErr {α : Type} : List (α → Option ValidationError) → α → Option ValidationError
  | [], _ => none
  | c :: cs, x =>
    match c x with
    | some e => some e
    | none => firstErr cs x

/- ### ex0: SpaceStation (`src/ex0/space_station.py`) -/

/-- The validated `SpaceStation` instance: fields of the pydantic model, with
defaults already substituted. -/
structure SpaceStation where
  station_id : String
  name : String
  crew_size : Int
  power_level : ℚ
  oxygen_level : ℚ
  last_maintenance : DateTime
  is_operational : Bool
  notes : Option String
deriving DecidableEq, Repr

/-- Raw input mapping for `SpaceStation`: already-typed values, `Option` for
the defaulted slots (`is_operational` defaults to `True`, `notes` to `None`). -/
structure SpaceStationInput where
  station_id : String
  name : String
  crew_size : Int
  power_level : ℚ
  oxygen_level : ℚ
  last_maintenance : DateTime
  is_operational : Option Bool
  notes : Option String
deriving DecidableEq, Repr

/-- The field checks of `SpaceStation`, one per constrained field, in
declaration order of `src/ex0/space_station.py` lines 7-14. -/
def stationChecks : List (SpaceStationInput → Option ValidationError) :=
  [ fun i => if lengthCheck 3 10 i.station_id then none
             else some (mkFieldErr "station_id" "station_id: length must be between 3 and 10"),
    fun i => if lengthCheck 1 50 i.name then none
             else some (mkFieldErr "name" "name: length must be between 1 and 50"),
    fun i => if intRangeCheck 1 20 i.crew_size then none
             else some (mkFieldErr "crew_size" "crew_size: must be between 1 and 20"),
    fun i => if rangeCheck 0 100 i.power_level then none
             else some (mkFieldErr "power_level" "power_level: must be between 0.0 and 100.0"),
    fun i => if rangeCheck 0 100 i.oxygen_level then none
             else some (mkFieldErr "oxygen_level" "oxygen_level: must be between 0.0 and 100.0"),
    fun i => match i.notes with
             | some s => if lengthCheck 0 200 s then none
                         else some (mkFieldErr "notes" "notes: length must be at most 200")
             | none => none ]

/-- Assemble the validated instance from checked input, substituting the
declared defaults (`is_operational=True`, `notes=None` when absent). -/
def SpaceStation.assemble (i : SpaceStationInput) : SpaceStation :=
  ⟨i.station_id, i.name, i.crew_size, i.power_level, i.oxygen_level,
   i.last_maintenance, i.is_operational.getD true, i.notes⟩

/-- Modelled from the spec: §4.4 orchestration for `SpaceStation` (the
pydantic `BaseModel` constructor, library code not in src/): field checks in
declaration order, first failure returned; the schema declares no model
rules. -/
def SpaceStation.validate (i : SpaceStationInput) : Except ValidationError SpaceStation :=
  match firstErr stationChecks i with
  | some e => Except.error e
  | none => Except.ok (SpaceStation.assemble i)

/- ### ex1: AlienContact (`src/ex1/alien_contact.py`) -/

/-- The `ContactType` enumeration of `src/ex1/alien_contact.py` lines 7-11. -/
inductive ContactType where
  | radio
  | visual
  | physical
  | telepathic
deriving DecidableEq, Repr

/-- The validated `AlienContact` instance, defaults substituted. -/
structure AlienContact where
  contact_id : String
  timestamp : DateTime
  location : String
  contact_type : ContactType
  signal_strength : ℚ
  duration_minutes : Int
  witness_count : Int
  message_received : Option String
  is_verified : Bool
deriving DecidableEq, Repr

/-- Raw input mapping for `AlienContact`; `Option` marks the defaulted slots
(`message_received` defaults to `None`, `is_verified` to `False`). -/
structure AlienContactInput where
  contact_id : String
  timestamp : DateTime
  location : String
  contact_type : ContactType
  signal_strength : ℚ
  duration_minutes : Int
  witness_count : Int
  message_received : Option String
  is_verified : Option Bool
deriving DecidableEq, Repr

/-- The field checks of `AlienContact`, in declaration order of
`src/ex1/alien_contact.py` lines 15-23 (typed enum and bool fields carry no
value constraints). -/
def contactChecks : List (AlienContactInput → Option ValidationError) :=
  [ fun i => if lengthCheck 5 15 i.contact_id then none
             else some (mkFieldErr "contact_id" "contact_id: length must be between 5 and 15"),
    fun i => if lengthCheck 3 100 i.location then none
             else some (mkFieldErr "location" "location: length must be between 3 and 100"),
    fun i => if rangeCheck 0 10 i.signal_strength then none
             else some (mkFieldErr "signal_strength" "signal_strength: must be between 0.0 and 10.0"),
    fun i => if intRangeCheck 1 1440 i.duration_minutes then none
             else some (mkFieldErr "duration_minutes" "duration_minutes: must be between 1 and 1440"),
    fun i => if intRangeCheck 1 100 i.witness_count then none
             else some (mkFieldErr "witness_count" "witness_count: must be between 1 and 100"),
    fun i => match i.message_received with
             | some s => if lengthCheck 0 500 s then none
                         else some (mkFieldErr "message_received" "message_received: length must be at most 500")
             | none => none ]

/-- Python truthiness of `self.message_received`: `None` and the empty string
are both falsy. -/
def messageFalsy : Option String → Bool
  | none => true
  | some s => s.isEmpty

/-- The model rules of `AlienContact.check_rules`
(`src/ex1/alien_contact.py` lines 25-40), clause by clause in source order. -/
def AlienContact.checkRules (c : AlienContact) : Option ValidationError :=
  if strStartsWith c.contact_id "AC" = false then
    some (mkRuleErr "contact_id must start with 'AC'")
  else if c.contact_type = ContactType.physical ∧ c.is_verified = false then
    some (mkRuleErr "Physical contact reports must be verified")
  else if c.contact_type = ContactType.telepathic ∧ c.witness_count < 3 then
    some (mkRuleErr "Telepathic contact requires at least 3 witnesses")
  else if 7 < c.signal_strength ∧ messageFalsy c.message_received = true then
    some (mkRuleErr "Strong signals must include a received message")
  else
    none

/-- Assemble the validated instance, substituting the declared defaults. -/
def AlienContact.assemble (i : AlienContactInput) : AlienContact :=
  ⟨i.contact_id, i.timestamp, i.location, i.contact_type, i.signal_strength,
   i.duration_minutes, i.witness_count, i.message_received,
   i.is_verified.getD false⟩

/-- Modelled from the spec: §4.4 orchestration for `AlienContact` (pydantic
constructor, library code not in src/): field checks in declaration order,
first failure returned; then the `mode='after'` model validator
`check_rules` on the assembled instance. -/
def AlienContact.validate (i : AlienContactInput) : Except ValidationError AlienContact :=
  match firstErr contactChecks i with
  | some e => Except.error e
  | none =>
    match AlienContact.checkRules (AlienContact.assemble i) with
    | some e => Except.error e
    | none => Except.ok (AlienContact.assemble i)

/- ### ex2: CrewMember and SpaceMission (`src/ex2/space_crew.py`) -/

/-- The `Rank` enumeration of `src/ex2/space_crew.py` lines 11-16. -/
inductive Rank where
  | cadet
  | officer
  | lieutenant
  | captain
  | commander
deriving DecidableEq, Repr

/-- The validated `CrewMember` instance, defaults substituted. -/
structure CrewMember where
  member_id : String
  name : String
  rank : Rank
  age : Int
  specialization : String
  years_experience : Int
  is_active : Bool
deriving DecidableEq, Repr

/-- Raw input mapping for `CrewMember` (`is_active` defaults to `True`). -/
structure CrewMemberInput where
  member_id : String
  name : String
  rank : Rank
  age : Int
  specialization : String
  years_experience : Int
  is_active : Option Bool
deriving DecidableEq, Repr

/-- The field checks of `CrewMember`, in declaration order of
`src/ex2/space_crew.py` lines 19-26. -/
def crewChecks : List (CrewMemberInput → Option ValidationError) :=
  [ fun i => if lengthCheck 3 10 i.member_id then none
             else some (mkFieldErr "member_id" "member_id: length must be between 3 and 10"),
    fun i => if lengthCheck 2 50 i.name then none
             else some (mkFieldErr "name" "name: length must be between 2 and 50"),
    fun i => if intRangeCheck 18 80 i.age then none
             else some (mkFieldErr "age" "age: must be between 18 and 80"),
    fun i => if lengthCheck 3 30 i.specialization then none
             else some (mkFieldErr "specialization" "specialization: length must be between 3 and 30"),
    fun i => if intRangeCheck 0 50 i.years_experience then none
             else some (mkFieldErr "years_experience" "years_experience: must be between 0 and 50") ]

/-- Assemble a validated `CrewMember` (`is_active=True` when absent). -/
def CrewMember.assemble (i : CrewMemberInput) : CrewMember :=
  ⟨i.member_id, i.name, i.rank, i.age, i.specialization, i.years_experience,
   i.is_active.getD true⟩

/-- Modelled from the spec: §4.4 orchestration for `CrewMember` (pydantic
constructor, library code not in src/); the schema declares no model rules. -/
def CrewMember.validate (i : CrewMemberInput) : Except ValidationError CrewMember :=
  match firstErr crewChecks i with
  | some e => Except.error e
  | none => Except.ok (CrewMember.assemble i)

/-- The validated `SpaceMission` instance, defaults substituted. -/
structure SpaceMission where
  mission_id : String
  mission_name : String
  destination : String
  launch_date : DateTime
  duration_days : Int
  crew : List CrewMember
  mission_status : String
  budget_millions : ℚ
deriving DecidableEq, Repr

/-- Raw input mapping for `SpaceMission` (`mission_status` defaults to
`"planned"`); crew elements are raw nested mappings, spec §4.3. -/
structure SpaceMissionInput where
  mission_id : String
  mission_name : String
  destination : String
  launch_date : DateTime
  duration_days : Int
  crew : List CrewMemberInput
  mission_status : Option String
  budget_millions : ℚ
deriving DecidableEq, Repr

/-- Modelled from the spec: §4.3 collection validation (library code not in
src/): validate each element in sequence order, stopping at the first
element-level failure and relabelling it with its index. -/
def validateCrewList : Nat → List CrewMemberInput → Except ValidationError (List CrewMember)
  | _, [] => Except.ok []
  | idx, i :: rest =>
    match CrewMember.validate i with
    | Except.error e =>
      Except.error ⟨some ("crew[" ++ toString idx ++ "]." ++ (e.field.getD "")), e.code, e.message⟩
    | Except.ok m =>
      match validateCrewList (idx + 1) rest with
      | Except.error e => Except.error e
      | Except.ok ms => Except.ok (m :: ms)

/-- The proportion of crew members with at least 5 years of experience,
computed with exact rational (non-truncating) division, as in
`experienced / len(self.crew)` of `src/ex2/space_crew.py` line 57. -/
def SpaceMission.expRatio (m : SpaceMission) : ℚ :=
  ((m.crew.filter fun c => decide (5 ≤ c.years_experience)).length : ℚ) /
    (m.crew.length : ℚ)

/-- The model rules of `SpaceMission.check_mission`
(`src/ex2/space_crew.py` lines 39-66), clause by clause in source order. -/
def SpaceMission.checkMission (m : SpaceMission) : Option ValidationError :=
  if strStartsWith m.mission_id "M" = false then
    some (mkRuleErr "mission_id must start with 'M'")
  else if (m.crew.any fun c =>
      decide (c.rank = Rank.captain ∨ c.rank = Rank.commander)) = false then
    some (mkRuleErr "Mission must have at least one Commander or Captain")
  else if 365 < m.duration_days ∧ SpaceMission.expRatio m < 1/2 then
    some (mkRuleErr "Long missions need 50% experienced crew (5+ years)")
  else if (m.crew.any fun c => !c.is_active) = true then
    some (mkRuleErr "All crew members must be active")
  else
    none

/-- Assemble the validated mission from checked scalar input and the already
validated crew (`mission_status="planned"` when absent). -/
def SpaceMission.assemble (i : SpaceMissionInput) (ms : List CrewMember) : SpaceMission :=
  ⟨i.mission_id, i.mission_name, i.destination, i.launch_date, i.duration_days,
   ms, i.mission_status.getD "planned", i.budget_millions⟩

/-- Modelled from the spec: §4.4 orchestration for `SpaceMission` (pydantic
constructor, library code not in src/): field checks in declaration order of
`src/ex2/space_crew.py` lines 30-37 — the `crew` field first checks the
element count against its own bounds (1 to 12) then validates each element
(spec §4.3) — then the `mode='after'` model validator `check_mission`. -/
def SpaceMission.validate (i : SpaceMissionInput) : Except ValidationError SpaceMission :=
  if lengthCheck 5 15 i.mission_id = false then
    Except.error (mkFieldErr "mission_id" "mission_id: length must be between 5 and 15")
  else if lengthCheck 3 100 i.mission_name = false then
    Except.error (mkFieldErr "mission_name" "mission_name: length must be between 3 and 100")
  else if lengthCheck 3 50 i.destination = false then
    Except.error (mkFieldErr "destination" "destination: length must be between 3 and 50")
  else if intRangeCheck 1 3650 i.duration_days = false then
    Except.error (mkFieldErr "duration_days" "duration_days: must be between 1 and 3650")
  else if (1 ≤ i.crew.length && i.crew.length ≤ 12) = false then
    Except.error (mkFieldErr "crew" "crew: element count must be between 1 and 12")
  else
    match validateCrewList 0 i.crew with
    | Except.error e => Except.error e
    | Except.ok ms =>
      if rangeCheck 1 10000 i.budget_millions = false then
        Except.error (mkFieldErr "budget_millions" "budget_millions: must be between 1.0 and 10000.0")
      else
        match SpaceMission.checkMission (SpaceMission.assemble i ms) with
        | some e => Except.error e
        | none => Except.ok (SpaceMission.assemble i ms)

/-- Decidable equality of validation results, for evaluating the validators
on concrete inputs. -/
instance {ε α : Type} [DecidableEq ε] [DecidableEq α] : DecidableEq (Except ε α) := fun x y =>
  match x, y with
  | Except.ok a, Except.ok b =>
    if h : a = b then isTrue (by rw [h])
    else isFalse (by intro hc; cases hc; exact h rfl)
  | Except.error a, Except.error b =>
    if h : a = b then isTrue (by rw [h])
    else isFalse (by intro hc; cases hc; exact h rfl)
  | Except.ok _, Except.error _ => isFalse (by intro hc; cases hc)
  | Except.error _, Except.ok _ => isFalse (by intro hc; cases hc)

/- ### Schema-satisfaction predicates and re-input maps -/

/-- All field constraints of the `SpaceStation` schema, holding of a
validated instance's own values. -/
def SpaceStation.satisfiesSchema (s : SpaceStation) : Prop :=
  lengthCheck 3 10 s.station_id = true ∧
  lengthCheck 1 50 s.name = true ∧
  intRangeCheck 1 20 s.crew_size = true ∧
  rangeCheck 0 100 s.power_level = true ∧
  rangeCheck 0 100 s.oxygen_level = true ∧
  (∀ n, s.notes = some n → lengthCheck 0 200 n = true)

/-- All field constraints of the `CrewMember` schema. -/
def CrewMember.satisfiesSchema (c : CrewMember) : Prop :=
  lengthCheck 3 10 c.member_id = true ∧
  lengthCheck 2 50 c.name = true ∧
  intRangeCheck 18 80 c.age = true ∧
  lengthCheck 3 30 c.specialization = true ∧
  intRangeCheck 0 50 c.years_experience = true

/-- All field constraints and model rules of the `SpaceMission` schema. -/
def SpaceMission.satisfiesSchema (m : SpaceMission) : Prop :=
  lengthCheck 5 15 m.mission_id = true ∧
  lengthCheck 3 100 m.mission_name = true ∧
  lengthCheck 3 50 m.destination = true ∧
  intRangeCheck 1 3650 m.duration_days = true ∧
  1 ≤ m.crew.length ∧ m.crew.length ≤ 12 ∧
  (∀ c ∈ m.crew, c.satisfiesSchema) ∧
  rangeCheck 1 10000 m.budget_millions = true ∧
  SpaceMission.checkMission m = none

/-- Read a validated contact's own field values back as a fresh input
mapping (spec §8, idempotence of success). -/
def AlienContact.toInput (c : AlienContact) : AlienContactInput :=
  ⟨c.contact_id, c.timestamp, c.location, c.contact_type, c.signal_strength,
   c.duration_minutes, c.witness_count, c.message_received, some c.is_verified⟩

/-- Read a validated crew member's own field values back as a fresh input. -/
def CrewMember.toInput (c : CrewMember) : CrewMemberInput :=
  ⟨c.member_id, c.name, c.rank, c.age, c.specialization, c.years_experience,
   some c.is_active⟩

/-- Read a validated mission's own field values back as a fresh input. -/
def SpaceMission.toInput (m : SpaceMission) : SpaceMissionInput :=
  ⟨m.mission_id, m.mission_name, m.destination, m.launch_date, m.duration_days,
   m.crew.map CrewMember.toInput, some m.mission_status, m.budget_millions⟩

/- ### Helper lemmas -/

/-- `firstErr` returns the error of the first failing check: if check `i`
fails and every earlier check passes, its error is the result. -/
theorem firstErr_eq_of_first {α : Type} (cs : List (α → Option ValidationError))
    (x : α) (i : Nat) (c : α → Option ValidationError) (e : ValidationError)
    (hc : cs[i]? = some c) (he : c x = some e)
    (hmin : ∀ j cj, j < i → cs[j]? = some cj → cj x = none) :
    firstErr cs x = some e := by
  induction cs generalizing i with
  | nil => simp at hc
  | cons c0 cs ih =>
    cases i with
    | zero =>
      simp at hc
      subst hc
      simp [firstErr, he]
    | succ i =>
      have h0 : c0 x = none := hmin 0 c0 (Nat.succ_pos i) (by simp)
      simp at hc
      have := ih i hc (fun j cj hj hcj => hmin (j + 1) cj (Nat.succ_lt_succ hj) (by simpa using hcj))
      simp [firstErr, h0, this]

/-- Any error returned by `firstErr` is produced by one of its checks. -/
theorem firstErr_mem {α : Type} (cs : List (α → Option ValidationError))
    (x : α) (e : ValidationError) (h : firstErr cs x = some e) :
    ∃ c ∈ cs, c x = some e := by
  induction cs with
  | nil => simp [firstErr] at h
  | cons c0 cs ih =>
    by_cases h0 : c0 x = none
    · simp [firstErr, h0] at h
      obtain ⟨c, hc, he⟩ := ih h
      exact ⟨c, List.mem_cons_of_mem _ hc, he⟩
    · obtain ⟨e0, he0⟩ := Option.ne_none_iff_exists'.mp h0
      simp [firstErr, he0] at h
      exact ⟨c0, List.mem_cons_self _ _, by rw [he0, h]⟩

/-- `firstErr` succeeds exactly when every check passes. -/
theorem firstErr_eq_none_iff {α : Type} (cs : List (α → Option ValidationError))
    (x : α) : firstErr cs x = none ↔ ∀ c ∈ cs, c x = none := by
  induction cs with
  | nil => simp [firstErr]
  | cons c0 cs ih =>
    cases h0 : c0 x with
    | some e => simp [firstErr, h0]
    | none => simp [firstErr, h0, ih]

/-- The result of running only the `k`-th field check of the `SpaceStation`
schema (declaration order) on an input. -/
def stationCheckAt (inp : SpaceStationInput) (k : Nat) : Option ValidationError :=
  match stationChecks[k]? with
  | some c => c inp
  | none => none

/- ### Claim theorems -/

/-- C1: for an input violating the constraints of two or more distinct
fields (indices `i < j` in declaration order, `i` the first failing one),
validation produces exactly one `ValidationError` — the `Except.error`
result carries a single error — and it reports the first failing field;
no later field's error is ever surfaced. -/
theorem station_first_failure (inp : SpaceStationInput) (i j : Nat)
    (e e' : ValidationError) (hij : i < j)
    (hei : stationCheckAt inp i = some e)
    (hej : stationCheckAt inp j = some e')
    (hmin : ∀ k, k < i → stationCheckAt inp k = none) :
    SpaceStation.validate inp = Except.error e := by
  unfold stationCheckAt at hei
  cases hc : stationChecks[i]? with
  | none => rw [hc] at hei; simp at hei
  | some c =>
    rw [hc] at hei
    have hfe : firstErr stationChecks inp = some e := by
      apply firstErr_eq_of_first stationChecks inp i c e hc hei
      intro k ck hk hck
      have := hmin k hk
      unfold stationCheckAt at this
      rw [hck] at this
      exact this
    unfold SpaceStation.validate
    rw [hfe]

/-- C1 witness: an input whose `station_id` (field 0) and `crew_size`
(field 2) both violate their constraints yields exactly the `station_id`
error. -/
theorem station_first_failure_witness :
    SpaceStation.validate ⟨"ab", "ISS", 99, 50, 50, ⟨2024, 5, 1⟩, some true, none⟩
      = Except.error (mkFieldErr "station_id" "station_id: length must be between 3 and 10") :=
  station_first_failure ⟨"ab", "ISS", 99, 50, 50, ⟨2024, 5, 1⟩, some true, none⟩
    0 2 (mkFieldErr "station_id" "station_id: length must be between 3 and 10")
    (mkFieldErr "crew_size" "crew_size: must be between 1 and 20")
    (by decide) (by decide) (by decide)
    (fun k hk => absurd hk (Nat.not_lt_zero k))

/-- C4: a numeric range check fails exactly when `value < min` or
`value > max`; the `Range{0.0, 100.0}` constraint of `power_level` and
`oxygen_level` accepts `0.0` and `100.0` and rejects `-0.0001` and
`100.0001`, both at the primitive and through full station validation. -/
theorem range_boundary_inclusive :
    (∀ lo hi v : ℚ, rangeCheck lo hi v = false ↔ (v < lo ∨ hi < v)) ∧
    rangeCheck 0 100 (0 : ℚ) = true ∧
    rangeCheck 0 100 (100 : ℚ) = true ∧
    rangeCheck 0 100 (mkRat (-1) 10000) = false ∧
    rangeCheck 0 100 (mkRat 1000001 10000) = false ∧
    SpaceStation.validate ⟨"SS-001", "ISS", 6, 0, 100, ⟨2024, 5, 1⟩, some true, none⟩
      = Except.ok ⟨"SS-001", "ISS", 6, 0, 100, ⟨2024, 5, 1⟩, true, none⟩ ∧
    SpaceStation.validate ⟨"SS-001", "ISS", 6, 100, 0, ⟨2024, 5, 1⟩, some true, none⟩
      = Except.ok ⟨"SS-001", "ISS", 6, 100, 0, ⟨2024, 5, 1⟩, true, none⟩ ∧
    SpaceStation.validate ⟨"SS-001", "ISS", 6, mkRat (-1) 10000, 90, ⟨2024, 5, 1⟩, some true, none⟩
      = Except.error (mkFieldErr "power_level" "power_level: must be between 0.0 and 100.0") ∧
    SpaceStation.validate ⟨"SS-001", "ISS", 6, mkRat 1000001 10000, 90, ⟨2024, 5, 1⟩, some true, none⟩
      = Except.error (mkFieldErr "power_level" "power_level: must be between 0.0 and 100.0") ∧
    SpaceStation.validate ⟨"SS-001", "ISS", 6, 50, mkRat (-1) 10000, ⟨2024, 5, 1⟩, some true, none⟩
      = Except.error (mkFieldErr "oxygen_level" "oxygen_level: must be between 0.0 and 100.0") ∧
    SpaceStation.validate ⟨"SS-001", "ISS", 6, 50, mkRat 1000001 10000, ⟨2024, 5, 1⟩, some true, none⟩
      = Except.error (mkFieldErr "oxygen_level" "oxygen_level: must be between 0.0 and 100.0") := by
  refine ⟨fun lo hi v => ?_, by decide, by decide, by decide, by decide,
    by decide, by decide, by decide, by decide, by decide, by decide⟩
  unfold rangeCheck
  rcases lt_or_le v lo with h1 | h1
  · simp [h1]
  · rcases le_or_lt v hi with h2 | h2
    · simp [h1.not_lt, h2.not_lt, h2]
    · simp [h1.not_lt, h2]

/-- C8: the spec's station scenario — the valid record succeeds; the same
record with `crew_size = 99` fails with a `ConstraintViolation` on field
`crew_size`; the bound is 20 inclusive (`crew_size = 20` succeeds,
`crew_size = 21` fails). -/
theorem station_scenario :
    SpaceStation.validate ⟨"SS-001", "ISS", 6, mkRat 171 2, 90, ⟨2024, 5, 1⟩, some true, none⟩
      = Except.ok ⟨"SS-001", "ISS", 6, mkRat 171 2, 90, ⟨2024, 5, 1⟩, true, none⟩ ∧
    SpaceStation.validate ⟨"SS-001", "ISS", 99, mkRat 171 2, 90, ⟨2024, 5, 1⟩, some true, none⟩
      = Except.error ⟨some "crew_size", ErrorKind.ConstraintViolation,
          "crew_size: must be between 1 and 20"⟩ ∧
    SpaceStation.validate ⟨"SS-001", "ISS", 20, mkRat 171 2, 90, ⟨2024, 5, 1⟩, some true, none⟩
      = Except.ok ⟨"SS-001", "ISS", 20, mkRat 171 2, 90, ⟨2024, 5, 1⟩, true, none⟩ ∧
    SpaceStation.validate ⟨"SS-001", "ISS", 21, mkRat 171 2, 90, ⟨2024, 5, 1⟩, some true, none⟩
      = Except.error ⟨some "crew_size", ErrorKind.ConstraintViolation,
          "crew_size: must be between 1 and 20"⟩ := by
  refine ⟨by decide, by decide, by decide, by decide⟩

/-- Every error a contact field check can produce is a field-level
`ConstraintViolation` naming its field. -/
theorem contactFieldErr_shape (inp : AlienContactInput) (e : ValidationError)
    (h : firstErr contactChecks inp = some e) :
    e.field.isSome = true ∧ e.code = ErrorKind.ConstraintViolation := by
  obtain ⟨c, hc, he⟩ := firstErr_mem _ _ _ h
  simp only [contactChecks, List.mem_cons, List.not_mem_nil, or_false] at hc
  rcases hc with h1 | h1 | h1 | h1 | h1 | h1 <;> subst h1 <;>
    simp only [] at he <;> (repeat' split at he) <;>
    first
      | exact Option.noConfusion he
      | (injection he with h2; subst h2; exact ⟨rfl, rfl⟩)

/-- C3: for an input that violates both a field-level constraint (some field
check returns an error) and a model rule (here: the raw `contact_id` fails
the prefix rule), the reported error is the field-level one — a
`ConstraintViolation` naming a field, never a `BusinessRuleViolation`;
model rules run only after every field passed. -/
theorem field_error_precedes_rules (inp : AlienContactInput) (e : ValidationError)
    (hf : firstErr contactChecks inp = some e)
    (hrule : strStartsWith inp.contact_id "AC" = false) :
    AlienContact.validate inp = Except.error e ∧
    e.field.isSome = true ∧ e.code = ErrorKind.ConstraintViolation := by
  obtain ⟨h1, h2⟩ := contactFieldErr_shape inp e hf
  refine ⟨?_, h1, h2⟩
  unfold AlienContact.validate
  rw [hf]

/-- C3 witness: `contact_id = "XY123"` violates the prefix rule and
`location = "ab"` violates its length constraint; the reported error is the
field-level `location` one. -/
theorem field_error_precedes_rules_witness :
    AlienContact.validate ⟨"XY123", ⟨2024, 1, 15⟩, "ab", ContactType.radio, 5, 30, 1, none, none⟩
      = Except.error (mkFieldErr "location" "location: length must be between 3 and 100") ∧
    (mkFieldErr "location" "location: length must be between 3 and 100").field.isSome = true ∧
    (mkFieldErr "location" "location: length must be between 3 and 100").code
      = ErrorKind.ConstraintViolation :=
  field_error_precedes_rules
    ⟨"XY123", ⟨2024, 1, 15⟩, "ab", ContactType.radio, 5, 30, 1, none, none⟩
    (mkFieldErr "location" "location: length must be between 3 and 100")
    (by decide) (by decide)

/-- C6: for a field-valid contact whose `contact_id` passes the prefix rule,
if `contact_type` is telepathic and `witness_count < 3`, validation fails as
a business-rule violation with message "Telepathic contact requires at least
3 witnesses"; with `witness_count ≥ 3` that rule never fires. -/
theorem telepathic_three_witnesses (inp : AlienContactInput)
    (hf : firstErr contactChecks inp = none)
    (hac : strStartsWith inp.contact_id "AC" = true)
    (ht : inp.contact_type = ContactType.telepathic) :
    (inp.witness_count < 3 →
       AlienContact.validate inp
         = Except.error (mkRuleErr "Telepathic contact requires at least 3 witnesses")) ∧
    (3 ≤ inp.witness_count →
       ∀ e, AlienContact.validate inp = Except.error e →
         e.message ≠ "Telepathic contact requires at least 3 witnesses") := by
  constructor
  · intro hw
    unfold AlienContact.validate
    rw [hf]
    simp [AlienContact.checkRules, AlienContact.assemble, hac, ht, hw]
  · intro hw e hve
    cases hck : AlienContact.checkRules (AlienContact.assemble inp) with
    | none =>
      have hv : AlienContact.validate inp = Except.ok (AlienContact.assemble inp) := by
        unfold AlienContact.validate
        rw [hf, hck]
      rw [hv] at hve
      exact Except.noConfusion hve
    | some e0 =>
      have hv : AlienContact.validate inp = Except.error e0 := by
        unfold AlienContact.validate
        rw [hf, hck]
      rw [hv] at hve
      injection hve with h2
      subst h2
      simp [AlienContact.checkRules, AlienContact.assemble, hac, ht,
        not_lt.mpr hw] at hck
      obtain ⟨-, h3⟩ := hck
      subst h3
      decide

/-- C6 witness: a telepathic contact with one witness is rejected by the
three-witness rule; the same contact with five witnesses is not. -/
theorem telepathic_three_witnesses_witness :
    AlienContact.validate
        ⟨"AC123", ⟨2024, 1, 15⟩, "Dark Side of the Moon", ContactType.telepathic, 5, 30, 1, none, none⟩
      = Except.error (mkRuleErr "Telepathic contact requires at least 3 witnesses") :=
  (telepathic_three_witnesses
    ⟨"AC123", ⟨2024, 1, 15⟩, "Dark Side of the Moon", ContactType.telepathic, 5, 30, 1, none, none⟩
    (by decide) (by decide) rfl).1 (by decide)

/-- C7: the contact identifier prefix rule is a literal `startswith` test on
"AC": `"AC123"` passes it and `"XY123"` does not; whenever the id fails the
test, `check_rules` reports exactly the business-rule violation citing the
required prefix, and whenever it passes, that message is never produced. -/
theorem contact_id_prefix_rule (c : AlienContact) :
    strStartsWith "AC123" "AC" = true ∧
    strStartsWith "XY123" "AC" = false ∧
    (strStartsWith c.contact_id "AC" = false →
       AlienContact.checkRules c = some (mkRuleErr "contact_id must start with 'AC'")) ∧
    (strStartsWith c.contact_id "AC" = true →
       ∀ e, AlienContact.checkRules c = some e →
         e.message ≠ "contact_id must start with 'AC'") := by
  refine ⟨by decide, by decide, ?_, ?_⟩
  · intro h
    simp [AlienContact.checkRules, h]
  · intro h e he
    simp only [AlienContact.checkRules, h] at he
    split at he
    · simp_all
    · split at he
      · injection he with h2
        subst h2
        decide
      · split at he
        · injection he with h2
          subst h2
          decide
        · split at he
          · injection he with h2
            subst h2
            decide
          · exact Option.noConfusion he

/-- C7 witness: a fully-assembled contact whose id is `"XY123"` is rejected
by `check_rules` with the prefix message. -/
theorem contact_id_prefix_rule_witness :
    AlienContact.checkRules
        ⟨"XY123", ⟨2024, 1, 15⟩, "Area 51", ContactType.radio, 5, 30, 1, none, false⟩
      = some (mkRuleErr "contact_id must start with 'AC'") :=
  (contact_id_prefix_rule
    ⟨"XY123", ⟨2024, 1, 15⟩, "Area 51", ContactType.radio, 5, 30, 1, none, false⟩).2.2.1
    (by decide)

/-- C10: for a field-valid contact with `signal_strength > 7.0` on which the
earlier rules pass, validation fails with "Strong signals must include a
received message" both when `message_received` is absent and when it is the
empty string — the rule tests Python truthiness — even though the empty
string passes the field's own length constraint. -/
theorem strong_signal_truthiness (inp : AlienContactInput)
    (hf : firstErr contactChecks inp = none)
    (hac : strStartsWith inp.contact_id "AC" = true)
    (hp : inp.contact_type = ContactType.physical → inp.is_verified.getD false = true)
    (htl : inp.contact_type = ContactType.telepathic → 3 ≤ inp.witness_count)
    (hs : 7 < inp.signal_strength) :
    ((inp.message_received = none ∨ inp.message_received = some "") →
       AlienContact.validate inp
         = Except.error (mkRuleErr "Strong signals must include a received message")) ∧
    messageFalsy (some "") = true ∧
    lengthCheck 0 500 "" = true := by
  refine ⟨?_, by decide, by decide⟩
  intro hm
  unfold AlienContact.validate
  rw [hf]
  have hmf : messageFalsy inp.message_received = true := by
    rcases hm with hm | hm <;> rw [hm] <;> decide
  have hp2 : ¬(inp.contact_type = ContactType.physical ∧ inp.is_verified.getD false = false) := by
    rintro ⟨h1, h2⟩
    rw [hp h1] at h2
    cases h2
  have ht2 : ¬(inp.contact_type = ContactType.telepathic ∧ inp.witness_count < 3) := by
    rintro ⟨h1, h2⟩
    exact absurd h2 (not_lt.mpr (htl h1))
  simp [AlienContact.checkRules, AlienContact.assemble, hac, hp2, ht2, hs, hmf]

/-- C10 witness: an otherwise-valid radio contact with signal strength 8.5
and an empty (but present) received message is rejected by the
strong-signal rule. -/
theorem strong_signal_truthiness_witness :
    AlienContact.validate
        ⟨"AC123", ⟨2024, 1, 15⟩, "Area 51", ContactType.radio, mkRat 17 2, 45, 5, some "", none⟩
      = Except.error (mkRuleErr "Strong signals must include a received message") :=
  (strong_signal_truthiness
    ⟨"AC123", ⟨2024, 1, 15⟩, "Area 51", ContactType.radio, mkRat 17 2, 45, 5, some "", none⟩
    (by decide) (by decide) (fun h => by cases h) (fun h => by cases h)
    (by decide)).1 (Or.inr rfl)

/-- C5: with the prefix and leadership rules passing, for a mission longer
than 365 days the experienced-crew rule passes exactly when the proportion
of crew members with at least 5 years of experience — `expRatio`, an exact
rational division of counts — is at least 1/2; when `duration_days ≤ 365`
the rule is not applied at all; and the concrete 900-day mission whose crew
of 3 has one experienced member is rejected by full validation with the
50%-experienced message. -/
theorem long_mission_experienced_crew (m : SpaceMission)
    (hid : strStartsWith m.mission_id "M" = true)
    (hld : (m.crew.any fun c =>
      decide (c.rank = Rank.captain ∨ c.rank = Rank.commander)) = true) :
    (365 < m.duration_days →
       ((SpaceMission.expRatio m < 1/2 →
           SpaceMission.checkMission m
             = some (mkRuleErr "Long missions need 50% experienced crew (5+ years)")) ∧
        (1/2 ≤ SpaceMission.expRatio m →
           ∀ e, SpaceMission.checkMission m = some e →
             e.message ≠ "Long missions need 50% experienced crew (5+ years)"))) ∧
    (m.duration_days ≤ 365 →
       ∀ e, SpaceMission.checkMission m = some e →
         e.message ≠ "Long missions need 50% experienced crew (5+ years)") ∧
    SpaceMission.validate
        ⟨"M2024_MARS", "Mars Colony Establishment", "Mars", ⟨2024, 6, 1⟩, 900,
         [⟨"CM001", "Sarah Connor", Rank.commander, 40, "Mission Command", 15, none⟩,
          ⟨"CM002", "John Smith", Rank.lieutenant, 30, "Navigation", 1, none⟩,
          ⟨"CM003", "Alice Johnson", Rank.officer, 28, "Engineering", 1, none⟩],
         none, 2500⟩
      = Except.error (mkRuleErr "Long missions need 50% experienced crew (5+ years)") := by
  have nc1 : ¬(strStartsWith m.mission_id "M" = false) := by
    rw [hid]
    exact fun h => Bool.noConfusion h
  have nc2 : ¬((m.crew.any fun c =>
      decide (c.rank = Rank.captain ∨ c.rank = Rank.commander)) = false) := by
    rw [hld]
    exact fun h => Bool.noConfusion h
  refine ⟨fun h365 => ⟨fun hr => ?_, fun hr e he => ?_⟩, fun h365 e he => ?_, ?_⟩
  · unfold SpaceMission.checkMission
    rw [if_neg nc1, if_neg nc2, if_pos ⟨h365, hr⟩]
  · unfold SpaceMission.checkMission at he
    rw [if_neg nc1, if_neg nc2,
      if_neg (fun hc => absurd hc.2 (not_lt.mpr hr))] at he
    split at he
    · injection he with h3
      subst h3
      decide
    · exact Option.noConfusion he
  · unfold SpaceMission.checkMission at he
    rw [if_neg nc1, if_neg nc2,
      if_neg (fun hc => absurd hc.1 (not_lt.mpr h365))] at he
    split at he
    · injection he with h3
      subst h3
      decide
    · exact Option.noConfusion he
  · have hcm : SpaceMission.checkMission
        ⟨"M2024_MARS", "Mars Colony Establishment", "Mars", ⟨2024, 6, 1⟩, 900,
         [⟨"CM001", "Sarah Connor", Rank.commander, 40, "Mission Command", 15, true⟩,
          ⟨"CM002", "John Smith", Rank.lieutenant, 30, "Navigation", 1, true⟩,
          ⟨"CM003", "Alice Johnson", Rank.officer, 28, "Engineering", 1, true⟩],
         "planned", 2500⟩
        = some (mkRuleErr "Long missions need 50% experienced crew (5+ years)") := by
      have h1 : strStartsWith "M2024_MARS" "M" = true := by decide
      have h2 : ([(⟨"CM001", "Sarah Connor", Rank.commander, 40, "Mission Command", 15, true⟩ : CrewMember),
          ⟨"CM002", "John Smith", Rank.lieutenant, 30, "Navigation", 1, true⟩,
          ⟨"CM003", "Alice Johnson", Rank.officer, 28, "Engineering", 1, true⟩].any fun c =>
            decide (c.rank = Rank.captain ∨ c.rank = Rank.commander)) = true := by decide
      have h3 : SpaceMission.expRatio
          ⟨"M2024_MARS", "Mars Colony Establishment", "Mars", ⟨2024, 6, 1⟩, 900,
           [⟨"CM001", "Sarah Connor", Rank.commander, 40, "Mission Command", 15, true⟩,
            ⟨"CM002", "John Smith", Rank.lieutenant, 30, "Navigation", 1, true⟩,
            ⟨"CM003", "Alice Johnson", Rank.officer, 28, "Engineering", 1, true⟩],
           "planned", 2500⟩ < 1/2 := by
        norm_num [SpaceMission.expRatio, List.filter]
      unfold SpaceMission.checkMission
      rw [if_neg (by simp [h1]), if_neg (by simp [h2]),
        if_pos ⟨by norm_num, h3⟩]
    have hv : SpaceMission.validate
        ⟨"M2024_MARS", "Mars Colony Establishment", "Mars", ⟨2024, 6, 1⟩, 900,
         [⟨"CM001", "Sarah Connor", Rank.commander, 40, "Mission Command", 15, none⟩,
          ⟨"CM002", "John Smith", Rank.lieutenant, 30, "Navigation", 1, none⟩,
          ⟨"CM003", "Alice Johnson", Rank.officer, 28, "Engineering", 1, none⟩],
         none, 2500⟩
        = (match SpaceMission.checkMission
            ⟨"M2024_MARS", "Mars Colony Establishment", "Mars", ⟨2024, 6, 1⟩, 900,
             [⟨"CM001", "Sarah Connor", Rank.commander, 40, "Mission Command", 15, true⟩,
              ⟨"CM002", "John Smith", Rank.lieutenant, 30, "Navigation", 1, true⟩,
              ⟨"CM003", "Alice Johnson", Rank.officer, 28, "Engineering", 1, true⟩],
             "planned", 2500⟩ with
           | some e => Except.error e
           | none => Except.ok
              ⟨"M2024_MARS", "Mars Colony Establishment", "Mars", ⟨2024, 6, 1⟩, 900,
               [⟨"CM001", "Sarah Connor", Rank.commander, 40, "Mission Command", 15, true⟩,
                ⟨"CM002", "John Smith", Rank.lieutenant, 30, "Navigation", 1, true⟩,
                ⟨"CM003", "Alice Johnson", Rank.officer, 28, "Engineering", 1, true⟩],
               "planned", 2500⟩) := rfl
    rw [hv, hcm]

/-- C5 witness: instantiating the rule characterisation at the 900-day
mission with 1 experienced member out of 3 yields the 50%-experienced
rejection from `check_mission`. -/
theorem long_mission_experienced_crew_witness :
    SpaceMission.checkMission
        ⟨"M2024_MARS", "Mars Colony Establishment", "Mars", ⟨2024, 6, 1⟩, 900,
         [⟨"CM001", "Sarah Connor", Rank.commander, 40, "Mission Command", 15, true⟩,
          ⟨"CM002", "John Smith", Rank.lieutenant, 30, "Navigation", 1, true⟩,
          ⟨"CM003", "Alice Johnson", Rank.officer, 28, "Engineering", 1, true⟩],
         "planned", 2500⟩
      = some (mkRuleErr "Long missions need 50% experienced crew (5+ years)") :=
  ((long_mission_experienced_crew
      ⟨"M2024_MARS", "Mars Colony Establishment", "Mars", ⟨2024, 6, 1⟩, 900,
       [⟨"CM001", "Sarah Connor", Rank.commander, 40, "Mission Command", 15, true⟩,
        ⟨"CM002", "John Smith", Rank.lieutenant, 30, "Navigation", 1, true⟩,
        ⟨"CM003", "Alice Johnson", Rank.officer, 28, "Engineering", 1, true⟩],
       "planned", 2500⟩
      (by decide) (by decide)).1 (by decide)).1
    (by norm_num [SpaceMission.expRatio, List.filter])

/- ### Success-extraction lemmas -/

/-- A boolean that is not `false` is `true`. -/
theorem bool_ne_false {b : Bool} (h : ¬(b = false)) : b = true := by
  cases hb : b
  · exact absurd hb h
  · rfl

/-- A passing `if`-style check means its condition held. -/
theorem ite_none_true {b : Bool} {e : ValidationError}
    (h : (if b then none else some e) = none) : b = true := by
  cases hb : b
  · rw [hb] at h
    simp at h
  · rfl

/-- A passing optional-string check bounds the string when present. -/
theorem optCheck_none {o : Option String} {lo hi : Nat} {e : ValidationError}
    (h : (match o with
          | some s => if lengthCheck lo hi s then none else some e
          | none => none) = none) :
    ∀ n, o = some n → lengthCheck lo hi n = true := by
  intro n hn
  rw [hn] at h
  exact ite_none_true h

/-- Characterisation of a successful station validation. -/
theorem station_validate_ok (inp : SpaceStationInput) (s : SpaceStation)
    (h : SpaceStation.validate inp = Except.ok s) :
    s = SpaceStation.assemble inp ∧ firstErr stationChecks inp = none := by
  unfold SpaceStation.validate at h
  cases hf : firstErr stationChecks inp with
  | some e => rw [hf] at h; exact Except.noConfusion h
  | none =>
    rw [hf] at h
    have h2 : Except.ok (SpaceStation.assemble inp) = Except.ok s := h
    injection h2 with h3
    exact ⟨h3.symm, rfl⟩

/-- Characterisation of a successful contact validation. -/
theorem contact_validate_ok (inp : AlienContactInput) (c : AlienContact)
    (h : AlienContact.validate inp = Except.ok c) :
    c = AlienContact.assemble inp ∧ firstErr contactChecks inp = none ∧
      AlienContact.checkRules (AlienContact.assemble inp) = none := by
  unfold AlienContact.validate at h
  cases hf : firstErr contactChecks inp with
  | some e => rw [hf] at h; exact Except.noConfusion h
  | none =>
    rw [hf] at h
    cases hr : AlienContact.checkRules (AlienContact.assemble inp) with
    | some e =>
      rw [hr] at h
      exact Except.noConfusion h
    | none =>
      rw [hr] at h
      have h2 : Except.ok (AlienContact.assemble inp) = Except.ok c := h
      injection h2 with h3
      exact ⟨h3.symm, rfl, rfl⟩

/-- Characterisation of a successful crew-member validation. -/
theorem crew_validate_ok (i : CrewMemberInput) (m : CrewMember)
    (h : CrewMember.validate i = Except.ok m) :
    m = CrewMember.assemble i ∧ firstErr crewChecks i = none := by
  unfold CrewMember.validate at h
  cases hf : firstErr crewChecks i with
  | some e => rw [hf] at h; exact Except.noConfusion h
  | none =>
    rw [hf] at h
    have h2 : Except.ok (CrewMember.assemble i) = Except.ok m := h
    injection h2 with h3
    exact ⟨h3.symm, rfl⟩

/-- A validated crew member satisfies all its field constraints. -/
theorem crew_ok_satisfies (i : CrewMemberInput) (m : CrewMember)
    (h : CrewMember.validate i = Except.ok m) : CrewMember.satisfiesSchema m := by
  obtain ⟨hm, hf⟩ := crew_validate_ok i m h
  subst hm
  have hall := (firstErr_eq_none_iff crewChecks i).mp hf
  simp only [crewChecks] at hall
  have g1 := hall _ (List.mem_cons_self _ _)
  have hall1 := fun c hc => hall c (List.mem_cons_of_mem _ hc)
  have g2 := hall1 _ (List.mem_cons_self _ _)
  have hall2 := fun c hc => hall1 c (List.mem_cons_of_mem _ hc)
  have g3 := hall2 _ (List.mem_cons_self _ _)
  have hall3 := fun c hc => hall2 c (List.mem_cons_of_mem _ hc)
  have g4 := hall3 _ (List.mem_cons_self _ _)
  have hall4 := fun c hc => hall3 c (List.mem_cons_of_mem _ hc)
  have g5 := hall4 _ (List.mem_cons_self _ _)
  exact ⟨ite_none_true g1, ite_none_true g2, ite_none_true g3,
    ite_none_true g4, ite_none_true g5⟩

/-- Elements and length of a successfully validated crew list. -/
theorem validateCrewList_ok (l : List CrewMemberInput) :
    ∀ k ms, validateCrewList k l = Except.ok ms →
      ms.length = l.length ∧ ∀ c ∈ ms, CrewMember.satisfiesSchema c := by
  induction l with
  | nil =>
    intro k ms h
    have h2 : Except.ok ([] : List CrewMember) = Except.ok ms := h
    injection h2 with h3
    subst h3
    exact ⟨rfl, fun c hc => absurd hc (List.not_mem_nil c)⟩
  | cons i rest ih =>
    intro k ms h
    unfold validateCrewList at h
    cases hv : CrewMember.validate i with
    | error e => rw [hv] at h; exact Except.noConfusion h
    | ok m =>
      rw [hv] at h
      cases hr : validateCrewList (k + 1) rest with
      | error e => rw [hr] at h; exact Except.noConfusion h
      | ok ms2 =>
        rw [hr] at h
        have h2 : Except.ok (m :: ms2) = Except.ok ms := h
        injection h2 with h3
        subst h3
        obtain ⟨hlen, hsat⟩ := ih (k + 1) ms2 hr
        refine ⟨by simp [hlen], ?_⟩
        intro c hc
        rcases List.mem_cons.mp hc with hc | hc
        · rw [hc]
          exact crew_ok_satisfies i m hv
        · exact hsat c hc

/-- Characterisation of a successful mission validation. -/
theorem mission_validate_ok (inp : SpaceMissionInput) (m : SpaceMission)
    (h : SpaceMission.validate inp = Except.ok m) :
    ∃ ms, validateCrewList 0 inp.crew = Except.ok ms ∧
      m = SpaceMission.assemble inp ms ∧
      lengthCheck 5 15 inp.mission_id = true ∧
      lengthCheck 3 100 inp.mission_name = true ∧
      lengthCheck 3 50 inp.destination = true ∧
      intRangeCheck 1 3650 inp.duration_days = true ∧
      (1 ≤ inp.crew.length && inp.crew.length ≤ 12) = true ∧
      rangeCheck 1 10000 inp.budget_millions = true ∧
      SpaceMission.checkMission (SpaceMission.assemble inp ms) = none := by
  unfold SpaceMission.validate at h
  split at h
  · exact Except.noConfusion h
  next h1 =>
    split at h
    · exact Except.noConfusion h
    next h2 =>
      split at h
      · exact Except.noConfusion h
      next h3 =>
        split at h
        · exact Except.noConfusion h
        next h4 =>
          split at h
          · exact Except.noConfusion h
          next h5 =>
            split at h
            · exact Except.noConfusion h
            next ms hcl =>
              split at h
              · exact Except.noConfusion h
              next h6 =>
                split at h
                · exact Except.noConfusion h
                next hcm =>
                  injection h with h8
                  exact ⟨ms, hcl, h8.symm, bool_ne_false h1, bool_ne_false h2,
                    bool_ne_false h3, bool_ne_false h4, bool_ne_false h5,
                    bool_ne_false h6, hcm⟩

/-- Re-validating a validated crew member's own values succeeds with the
same instance. -/
theorem crew_revalidate (i : CrewMemberInput) (m : CrewMember)
    (h : CrewMember.validate i = Except.ok m) :
    CrewMember.validate (CrewMember.toInput m) = Except.ok m := by
  obtain ⟨hm, hf⟩ := crew_validate_ok i m h
  subst hm
  have hf2 : firstErr crewChecks (CrewMember.toInput (CrewMember.assemble i)) = none := hf
  unfold CrewMember.validate
  rw [hf2]
  rfl

/-- Re-validating the values of an already validated crew list succeeds,
for any starting index. -/
theorem crewList_revalidate (l : List CrewMemberInput) :
    ∀ k ms, validateCrewList k l = Except.ok ms →
      ∀ j, validateCrewList j (List.map CrewMember.toInput ms) = Except.ok ms := by
  induction l with
  | nil =>
    intro k ms h j
    have h2 : Except.ok ([] : List CrewMember) = Except.ok ms := h
    injection h2 with h3
    subst h3
    rfl
  | cons i rest ih =>
    intro k ms h j
    unfold validateCrewList at h
    cases hv : CrewMember.validate i with
    | error e => rw [hv] at h; exact Except.noConfusion h
    | ok m =>
      rw [hv] at h
      cases hr : validateCrewList (k + 1) rest with
      | error e => rw [hr] at h; exact Except.noConfusion h
      | ok ms2 =>
        rw [hr] at h
        have h2 : Except.ok (m :: ms2) = Except.ok ms := h
        injection h2 with h3
        subst h3
        show validateCrewList j (CrewMember.toInput m :: List.map CrewMember.toInput ms2)
          = Except.ok (m :: ms2)
        unfold validateCrewList
        rw [crew_revalidate i m hv]
        simp only [ih (k + 1) ms2 hr (j + 1)]

/-- C2: a successfully validated instance satisfies every field constraint
and every model rule of its schema; the embedding offers no mutation of a
constructed instance, so an instance that passed validation can never later
violate its schema. -/
theorem validated_instance_immutable :
    (∀ inp s, SpaceStation.validate inp = Except.ok s → SpaceStation.satisfiesSchema s) ∧
    (∀ inp m, SpaceMission.validate inp = Except.ok m → SpaceMission.satisfiesSchema m) := by
  constructor
  · intro inp s h
    obtain ⟨hs, hf⟩ := station_validate_ok inp s h
    subst hs
    have hall := (firstErr_eq_none_iff stationChecks inp).mp hf
    simp only [stationChecks] at hall
    have g1 := hall _ (List.mem_cons_self _ _)
    have hall1 := fun c hc => hall c (List.mem_cons_of_mem _ hc)
    have g2 := hall1 _ (List.mem_cons_self _ _)
    have hall2 := fun c hc => hall1 c (List.mem_cons_of_mem _ hc)
    have g3 := hall2 _ (List.mem_cons_self _ _)
    have hall3 := fun c hc => hall2 c (List.mem_cons_of_mem _ hc)
    have g4 := hall3 _ (List.mem_cons_self _ _)
    have hall4 := fun c hc => hall3 c (List.mem_cons_of_mem _ hc)
    have g5 := hall4 _ (List.mem_cons_self _ _)
    have hall5 := fun c hc => hall4 c (List.mem_cons_of_mem _ hc)
    have g6 := hall5 _ (List.mem_cons_self _ _)
    exact ⟨ite_none_true g1, ite_none_true g2, ite_none_true g3,
      ite_none_true g4, ite_none_true g5, optCheck_none g6⟩
  · intro inp m h
    obtain ⟨ms, hcl, hm, h1, h2, h3, h4, h5, h6, hcm⟩ := mission_validate_ok inp m h
    subst hm
    obtain ⟨hlen, hsat⟩ := validateCrewList_ok inp.crew 0 ms hcl
    simp only [Bool.and_eq_true, decide_eq_true_eq] at h5
    obtain ⟨h5a, h5b⟩ := h5
    refine ⟨h1, h2, h3, h4, ?_, ?_, hsat, h6, hcm⟩
    · show 1 ≤ ms.length
      rw [hlen]
      exact h5a
    · show ms.length ≤ 12
      rw [hlen]
      exact h5b

/-- C2 witness: concrete successful validations whose instances satisfy
their schemas. -/
theorem validated_instance_immutable_witness :
    SpaceStation.satisfiesSchema
      ⟨"SS-001", "ISS", 6, mkRat 171 2, 90, ⟨2024, 5, 1⟩, true, none⟩ ∧
    SpaceMission.satisfiesSchema
      ⟨"M2024_MOON", "Moon Mission", "Moon", ⟨2024, 6, 1⟩, 30,
       [⟨"CM001", "Sarah Connor", Rank.commander, 40, "Mission Command", 15, true⟩],
       "planned", 100⟩ :=
  ⟨validated_instance_immutable.1
      ⟨"SS-001", "ISS", 6, mkRat 171 2, 90, ⟨2024, 5, 1⟩, some true, none⟩ _ (by decide),
   validated_instance_immutable.2
      ⟨"M2024_MOON", "Moon Mission", "Moon", ⟨2024, 6, 1⟩, 30,
       [⟨"CM001", "Sarah Connor", Rank.commander, 40, "Mission Command", 15, none⟩],
       none, 100⟩ _ (by decide)⟩

/-- C9: validation of success is idempotent — feeding a validated
instance's own field values (defaults included) back as a fresh input to
the same schema succeeds again, with the same instance. -/
theorem validate_idempotent :
    (∀ inp c, AlienContact.validate inp = Except.ok c →
       AlienContact.validate (AlienContact.toInput c) = Except.ok c) ∧
    (∀ inp m, SpaceMission.validate inp = Except.ok m →
       SpaceMission.validate (SpaceMission.toInput m) = Except.ok m) := by
  constructor
  · intro inp c h
    obtain ⟨hc, hf, hr⟩ := contact_validate_ok inp c h
    subst hc
    have hf2 : firstErr contactChecks
        (AlienContact.toInput (AlienContact.assemble inp)) = none := hf
    have hr2 : AlienContact.checkRules
        (AlienContact.assemble (AlienContact.toInput (AlienContact.assemble inp))) = none := hr
    unfold AlienContact.validate
    rw [hf2, hr2]
    rfl
  · intro inp m h
    obtain ⟨ms, hcl, hm, h1, h2, h3, h4, h5, h6, hcm⟩ := mission_validate_ok inp m h
    subst hm
    have hlen := (validateCrewList_ok inp.crew 0 ms hcl).1
    have n1 : ¬(lengthCheck 5 15
        (SpaceMission.toInput (SpaceMission.assemble inp ms)).mission_id = false) := by
      show ¬(lengthCheck 5 15 inp.mission_id = false)
      rw [h1]
      exact fun hx => Bool.noConfusion hx
    have n2 : ¬(lengthCheck 3 100
        (SpaceMission.toInput (SpaceMission.assemble inp ms)).mission_name = false) := by
      show ¬(lengthCheck 3 100 inp.mission_name = false)
      rw [h2]
      exact fun hx => Bool.noConfusion hx
    have n3 : ¬(lengthCheck 3 50
        (SpaceMission.toInput (SpaceMission.assemble inp ms)).destination = false) := by
      show ¬(lengthCheck 3 50 inp.destination = false)
      rw [h3]
      exact fun hx => Bool.noConfusion hx
    have n4 : ¬(intRangeCheck 1 3650
        (SpaceMission.toInput (SpaceMission.assemble inp ms)).duration_days = false) := by
      show ¬(intRangeCheck 1 3650 inp.duration_days = false)
      rw [h4]
      exact fun hx => Bool.noConfusion hx
    have n5 : ¬((1 ≤ (SpaceMission.toInput (SpaceMission.assemble inp ms)).crew.length &&
        (SpaceMission.toInput (SpaceMission.assemble inp ms)).crew.length ≤ 12) = false) := by
      show ¬((1 ≤ (List.map CrewMember.toInput ms).length &&
        (List.map CrewMember.toInput ms).length ≤ 12) = false)
      rw [List.length_map, hlen, h5]
      exact fun hx => Bool.noConfusion hx
    have n6 : ¬(rangeCheck 1 10000
        (SpaceMission.toInput (SpaceMission.assemble inp ms)).budget_millions = false) := by
      show ¬(rangeCheck 1 10000 inp.budget_millions = false)
      rw [h6]
      exact fun hx => Bool.noConfusion hx
    have hcl2 : validateCrewList 0
        ((SpaceMission.toInput (SpaceMission.assemble inp ms)).crew) = Except.ok ms :=
      crewList_revalidate inp.crew 0 ms hcl 0
    have hcm2 : SpaceMission.checkMission
        (SpaceMission.assemble (SpaceMission.toInput (SpaceMission.assemble inp ms)) ms)
        = none := hcm
    unfold SpaceMission.validate
    rw [if_neg n1, if_neg n2, if_neg n3, if_neg n4, if_neg n5]
    simp only [hcl2]
    rw [if_neg n6]
    simp only [hcm2]
    rfl

/-- C9 witness: concrete contact and mission instances revalidated from
their own values. -/
theorem validate_idempotent_witness :
    AlienContact.validate
        (AlienContact.toInput
          ⟨"AC123", ⟨2024, 1, 15⟩, "Area 51", ContactType.radio, 5, 30, 2, none, false⟩)
      = Except.ok
        ⟨"AC123", ⟨2024, 1, 15⟩, "Area 51", ContactType.radio, 5, 30, 2, none, false⟩ ∧
    SpaceMission.validate
        (SpaceMission.toInput
          ⟨"M2024_MOON", "Moon Mission", "Moon", ⟨2024, 6, 1⟩, 30,
           [⟨"CM001", "Sarah Connor", Rank.commander, 40, "Mission Command", 15, true⟩],
           "planned", 100⟩)
      = Except.ok
        ⟨"M2024_MOON", "Moon Mission", "Moon", ⟨2024, 6, 1⟩, 30,
         [⟨"CM001", "Sarah Connor", Rank.commander, 40, "Mission Command", 15, true⟩],
         "planned", 100⟩ :=
  ⟨validate_idempotent.1
      ⟨"AC123", ⟨2024, 1, 15⟩, "Area 51", ContactType.radio, 5, 30, 2, none, none⟩ _ (by decide),
   validate_idempotent.2
      ⟨"M2024_MOON", "Moon Mission", "Moon", ⟨2024, 6, 1⟩, 30,
       [⟨"CM001", "Sarah Connor", Rank.commander, 40, "Mission Command", 15, none⟩],
       none, 100⟩ _ (by decide)⟩

end PyMod09
